import Mathlib

/-!
Shallow embedding (in Lean 4) of `rounds/base.py` from the
`archery-rounds` repository: the entity model (`ScoringRing`,
`TargetFace`, `SubRound`, `Round`, `RoundClass`) and the round
classification engine (`valid_subround_choices`, `validate_round`,
`belongs_to`), together with theorems settling the specification
claims about them.

Modelling conventions:
* Python `int` is embedded as `Int`; Python `float` values appearing in
  the data model (distances, diameters, ratios) are embedded as `ℚ`.
  Every equality and arithmetic step the claims exercise is exact on
  the concrete values involved, so the rational embedding is faithful
  there.
* Python `None` arguments and falsy checks are embedded with `Option`.
* A Python function that can raise is embedded as returning
  `Except String α`; the string carries the Python exception class of
  the raise (`ValueError`, `AttributeError`, `TypeError`).
* Python `functools.reduce(f, xs, init)` is `List.foldl f init xs`.
-/

namespace ArcheryRounds

/-- The `Season` enum from `rounds/base.py` (values `"OD"`, `"IN"`). -/
inductive Season where
  | OUTDOORS
  | INDOORS
deriving DecidableEq, Repr

/-- The `ScoringType` enum from `rounds/base.py`. -/
inductive ScoringType where
  | IMPERIAL
  | METRIC
  | WORCESTER
  | HIT_MISS
deriving DecidableEq, Repr

/-- The `DistanceType` enum from `rounds/base.py`. -/
inductive DistanceType where
  | METRES
  | YARDS
deriving DecidableEq, Repr

/-- The `TargetConfig` enum from `rounds/base.py`. -/
inductive TargetConfig where
  | SINGLE_FACE
  | VERTICAL_3SPOT
  | DIAMOND_3SPOT
deriving DecidableEq, Repr

/-- Embeds `ScoringRing = namedtuple("ScoringRing", ["label", "value", "ratio"])`.
Namedtuple equality is componentwise, which is the derived structural
equality here. -/
structure ScoringRing where
  label : String
  value : ℚ
  ratio : ℚ
deriving DecidableEq, Repr

/-- Embeds `TargetFace.__init__`: stores `name`, `diameter`, `rings`, `config`
verbatim. -/
structure TargetFace where
  name : String
  diameter : ℚ
  rings : List ScoringRing
  config : TargetConfig
deriving DecidableEq, Repr

/-- Embeds `SubRound.__init__`: stores all five attributes verbatim, with no
validation of any kind (`num_arrows = 0` or a non-positive distance is
accepted). -/
structure SubRound where
  num_arrows : Int
  distance : ℚ
  scoring_type : ScoringType
  target_face : TargetFace
  distance_type : DistanceType
deriving DecidableEq, Repr

/-- The state of a successfully constructed `Round`: `name`, `season`
and the `subrounds` list stored verbatim by `Round.__init__`. -/
structure Round where
  name : String
  season : Season
  subrounds : List SubRound
deriving DecidableEq, Repr

/-- The Python exception message raised by `Round.__init__`. -/
def emptyRoundMsg : String := "ValueError: There must be at least 1 SubRound to form a round."

/-- Embeds `Round.__init__(name, season, subrounds)`.  The guard is
`if not subrounds or len(subrounds) < 1: raise ValueError(...)`:
`not subrounds` is true for `None` and for an empty list (Python
falsiness), and the second disjunct re-checks emptiness.  `subrounds`
is `Option`-typed because Python allows passing `None`. -/
def Round.make (name : String) (season : Season)
    (subrounds : Option (List SubRound)) : Except String Round :=
  match subrounds with
  | Option.none => Except.error emptyRoundMsg
  | Option.some l =>
      if l.isEmpty || decide (l.length < 1) then Except.error emptyRoundMsg
      else Except.ok (Round.mk name season l)

/-- The `Round.num_arrows` property:
`reduce(lambda x, y: x + y.num_arrows, self.subrounds, 0)`. -/
def Round.num_arrows (r : Round) : Int :=
  r.subrounds.foldl (fun x y => x + y.num_arrows) 0

/-- The data part of a `RoundClass` (`name`, `season`, and per-position
acceptable-`SubRound` lists), split off so that validator functions can
be typed over it without a circular reference. -/
structure RoundClassData where
  name : String
  season : Season
  subrounds : List (List SubRound)
deriving DecidableEq, Repr

/-- Embeds `RoundValidator = Callable[["RoundClass", "Round"], bool]`.
Embedded over the data part of the class (the only validator in the
source reads nothing but `round_class.subrounds`). -/
def RoundValidator : Type := RoundClassData → Round → Bool

/-- Python list membership `a in b` for a list `b` of `SubRound`s:
true iff some element of `b` is structurally equal to `a`
(`SubRound.__eq__` is field-by-field). -/
def pyContains (b : List SubRound) (a : SubRound) : Bool :=
  b.any (fun x => decide (x = a))

/-- Embeds `valid_subround_choices(round_class, rnd)` from `rounds/base.py`:
`reduce(lambda x, y: x and y, [a in b for (a, b) in zip(rnd.subrounds,
round_class.subrounds)], True)`. -/
def valid_subround_choices (round_class : RoundClassData) (rnd : Round) : Bool :=
  ((rnd.subrounds.zip round_class.subrounds).map
      (fun p => pyContains p.2 p.1)).foldl (fun x y => x && y) true

/-- Embeds `RoundClass.__init__`: the data fields plus the `validators` list
(whose Python default is `[valid_subround_choices]`; the default is not
baked in here, callers pass the list explicitly). -/
structure RoundClass extends RoundClassData where
  validators : List RoundValidator

/-- Embeds `RoundClass.validate_round(round)`:
`reduce(lambda x, y: x and y(self, round), self.validators, True)`. -/
def RoundClass.validate_round (c : RoundClass) (round : Round) : Bool :=
  c.validators.foldl (fun x y => x && y c.toRoundClassData round) true

/-- Embeds `Round.belongs_to(round_class)`: simply
`return round_class.validate_round(self)`. -/
def Round.belongs_to (r : Round) (round_class : RoundClass) : Bool :=
  round_class.validate_round r

/-! ### Distance formatting (`metres_to_yards`, `SubRound.readable_distance`)

Python's `round(x, n)` rounds half to even; on the decimal values the
data model carries, the rational half-even rounding below is the exact
behaviour.  Python's `str` of a float prints the shortest decimal
expansion and always keeps at least one fractional digit
(`str(70.0) == "70.0"`); `pyFloatStr` reproduces that for rationals
with a finite decimal expansion, which is all the formatting path ever
produces after rounding. -/

/-- Embeds `metres_to_yards(distance)`: `distance * 1.0936133`. -/
def metres_to_yards (distance : ℚ) : ℚ :=
  distance * (10936133 / 10000000 : ℚ)

/-- Round a rational to the nearest integer, ties to even (the Python
`round` rule). -/
def roundHalfEven (q : ℚ) : ℤ :=
  let f := q.floor
  let r := q - (f : ℚ)
  if r < 1 / 2 then f
  else if 1 / 2 < r then f + 1
  else if f % 2 = 0 then f else f + 1

/-- Python `round(q, n)` for nonnegative `n`. -/
def pyRound (q : ℚ) (n : ℕ) : ℚ :=
  ((roundHalfEven (q * 10 ^ n) : ℚ)) / 10 ^ n

/-- The fractional decimal digits of a rational in `[0, 1)`, most
significant first, stopping at zero remainder (fuel-bounded). -/
def fracDigits : ℕ → ℚ → List ℕ
  | 0, _ => []
  | Nat.succ fuel, q =>
      if q = 0 then []
      else
        let d := (q * 10).floor
        d.toNat :: fracDigits fuel (q * 10 - (d : ℚ))

/-- Models `str(x)` for a float whose value is the rational `q` with a finite
decimal expansion: sign, integer part, a dot, and the fractional
digits (at least one, so `70` prints as `"70.0"`). -/
def pyFloatStr (q : ℚ) : String :=
  let sign := if q < 0 then "-" else ""
  let aq := |q|
  let ip := aq.floor.toNat
  let ds := fracDigits 20 (aq - (aq.floor : ℚ))
  let fracStr := if ds.isEmpty then "0" else String.join (ds.map (fun d => toString d))
  sign ++ toString ip ++ "." ++ fracStr

/-- Python `s.rstrip(c)` for a one-character strip set: drop every
trailing occurrence of `c`. -/
def pyRstrip (s : String) (c : Char) : String :=
  String.mk ((s.data.reverse.dropWhile (fun x => x = c)).reverse)

/-- Embeds `SubRound.readable_distance(decimal_places)` from `rounds/base.py`:
formats `round(distance, dp)` (converted to yards first when the unit
is yards), appends the unit suffix, then applies `.rstrip("0")` and
`.rstrip(".")` to the suffixed string — exactly the source's order of
operations. -/
def SubRound.readable_distance (s : SubRound) (decimal_places : ℕ) : String :=
  if s.distance_type = DistanceType.METRES then
    pyRstrip (pyRstrip (pyFloatStr (pyRound s.distance decimal_places) ++ "m") '0') '.'
  else
    pyRstrip
      (pyRstrip (pyFloatStr (pyRound (metres_to_yards s.distance) decimal_places) ++ "yd") '0') '.'

/-! ### Dynamic (malformed-input) layer

Python performs no input checking in the classification engine: passing
`None` for the round or the class raises `AttributeError` at the
attribute access, and a non-iterable per-position value raises
`TypeError` at the `a in b` test.  This layer embeds those dynamic
behaviours: per-position values that may not be lists, and `Option`al
round/class references. -/

/-- A per-position value of `RoundClass.subrounds` as Python sees it:
either an actual list of `SubRound`s, or some non-iterable object. -/
inductive PySeq where
  | list : List SubRound → PySeq
  | notIterable : PySeq
deriving DecidableEq

/-- A `RoundClass` whose per-position acceptable-set entries may be
structurally malformed (non-iterable). -/
structure RoundClassDyn where
  name : String
  season : Season
  subrounds : List PySeq
deriving DecidableEq

/-- Python `a in b` at dynamic type: a `TypeError` when `b` is not
iterable, membership by structural equality otherwise. -/
def pyIn (a : SubRound) (b : PySeq) : Except String Bool :=
  match b with
  | PySeq.list l => Except.ok (l.any (fun x => decide (x = a)))
  | PySeq.notIterable => Except.error "TypeError"

/-- The list comprehension `[a in b for (a, b) in zip(...)]`: evaluated
left to right, the first raising element aborts the whole comprehension. -/
def comprehend : List (SubRound × PySeq) → Except String (List Bool)
  | [] => Except.ok []
  | (a, b) :: rest =>
      match pyIn a b with
      | Except.error e => Except.error e
      | Except.ok v =>
          match comprehend rest with
          | Except.error e => Except.error e
          | Except.ok vs => Except.ok (v :: vs)

/-- Embeds `valid_subround_choices(round_class, rnd)` on possibly-`None`,
possibly-malformed arguments.  `zip(rnd.subrounds, round_class.subrounds)`
evaluates `rnd.subrounds` first, so a `None` round raises
`AttributeError` before a `None` class does; either way the call
raises. -/
def valid_subround_choicesDyn :
    Option RoundClassDyn → Option Round → Except String Bool
  | _, Option.none => Except.error "AttributeError"
  | Option.none, Option.some _ => Except.error "AttributeError"
  | Option.some c, Option.some r =>
      match comprehend (r.subrounds.zip c.subrounds) with
      | Except.error e => Except.error e
      | Except.ok bs => Except.ok (bs.foldl (fun x y => x && y) true)

/-- Stated from the claim: the inputs are structurally malformed when
the round or the class reference is `None`, or when some per-position
acceptable set actually reached by the positional pairing is not
iterable. -/
def malformedInputs : Option RoundClassDyn → Option Round → Bool
  | _, Option.none => true
  | Option.none, Option.some _ => true
  | Option.some c, Option.some r =>
      (r.subrounds.zip c.subrounds).any (fun p => decide (p.2 = PySeq.notIterable))

/-- Embeds `Round.belongs_to(None)`: `None.validate_round(self)` raises
`AttributeError`.  For a present class carrying the default validator
list `[valid_subround_choices]`, `validate_round` reduces to the one
engine call. -/
def Round.belongs_toDyn (r : Round) (round_class : Option RoundClassDyn) :
    Except String Bool :=
  match round_class with
  | Option.none => Except.error "AttributeError"
  | Option.some c => valid_subround_choicesDyn (Option.some c) (Option.some r)

/-- Inject a well-formed class's data into the dynamic layer. -/
def RoundClassData.toDyn (c : RoundClassData) : RoundClassDyn :=
  RoundClassDyn.mk c.name c.season (c.subrounds.map PySeq.list)

/-- Reimplements `Except.isOk` without relying on the library name. -/
def exOk {α : Type} (e : Except String α) : Bool :=
  match e with
  | Except.ok _ => true
  | Except.error _ => false

/-! ### Python-level equality (`__eq__`)

`TargetFace.__eq__` and `SubRound.__eq__` compare field by field after
an `isinstance` test and end with an explicit `return False`, so they
return a bool against every other type.  `Round.__eq__` has no `else`
branch: against a non-`Round` it falls off the end of the function and
returns `None` (a falsy value that is not `False`).  The embedding
makes the distinction visible by letting `Round.pyEq` return
`Option Bool`, with `Option.none` standing for Python's `None`. -/

/-- A Python value handed to an `__eq__` method: one of the model's
objects, or a value of some unrelated type. -/
inductive PyVal where
  | vTargetFace : TargetFace → PyVal
  | vSubRound : SubRound → PyVal
  | vRound : Round → PyVal
  | vInt : Int → PyVal
  | vStr : String → PyVal
  | vNone : PyVal
deriving DecidableEq

/-- True when `other` passes `isinstance(other, TargetFace)`. -/
def PyVal.isTargetFace : PyVal → Bool
  | PyVal.vTargetFace _ => true
  | _ => false

/-- True when `other` passes `isinstance(other, SubRound)`. -/
def PyVal.isSubRound : PyVal → Bool
  | PyVal.vSubRound _ => true
  | _ => false

/-- True when `other` passes `isinstance(other, Round)`. -/
def PyVal.isRound : PyVal → Bool
  | PyVal.vRound _ => true
  | _ => false

/-- Embeds `TargetFace.__eq__`: field-by-field comparison after the
`isinstance` test; explicit `return False` otherwise. -/
def TargetFace.pyEq (self : TargetFace) (other : PyVal) : Bool :=
  match other with
  | PyVal.vTargetFace o =>
      decide (self.name = o.name) && decide (self.diameter = o.diameter)
        && decide (self.rings = o.rings) && decide (self.config = o.config)
  | _ => false

/-- Embeds `SubRound.__eq__`: field-by-field comparison after the
`isinstance` test; explicit `return False` otherwise. -/
def SubRound.pyEq (self : SubRound) (other : PyVal) : Bool :=
  match other with
  | PyVal.vSubRound o =>
      decide (self.target_face = o.target_face) && decide (self.distance = o.distance)
        && decide (self.num_arrows = o.num_arrows)
        && decide (self.scoring_type = o.scoring_type)
        && decide (self.distance_type = o.distance_type)
  | _ => false

/-- Embeds `Round.__eq__`: field-by-field comparison after the `isinstance`
test; NO `else` branch, so a non-`Round` argument yields Python `None`
(`Option.none` here), not `False`. -/
def Round.pyEq (self : Round) (other : PyVal) : Option Bool :=
  match other with
  | PyVal.vRound o =>
      Option.some (decide (self.subrounds = o.subrounds)
        && decide (self.name = o.name) && decide (self.season = o.season))
  | _ => Option.none

/-! ### Concrete fixture values used by witnesses and counterexamples -/

/-- A concrete scoring ring (the hit ring of a hit-miss face). -/
def ringHit : ScoringRing := ScoringRing.mk "hit" 1 1

/-- A concrete 10-ring. -/
def ringTen : ScoringRing := ScoringRing.mk "10" 10 (1 / 10)

/-- A concrete target face. -/
def faceEx : TargetFace :=
  TargetFace.mk "6cm Hit-Miss" (6 / 100) [ringHit] TargetConfig.DIAMOND_3SPOT

/-- A second concrete target face (differs from `faceEx`). -/
def faceEx2 : TargetFace :=
  TargetFace.mk "122cm 10 zone" (122 / 100) [ringTen, ringHit] TargetConfig.SINGLE_FACE

/-- A concrete sub-round: 36 arrows at 70 m, metric scoring. -/
def subA : SubRound :=
  SubRound.mk 36 70 ScoringType.METRIC faceEx2 DistanceType.METRES

/-- A concrete sub-round: 3 dozen at 50 m on the hit-miss face. -/
def subB : SubRound :=
  SubRound.mk 36 50 ScoringType.METRIC faceEx DistanceType.METRES

/-- A concrete sub-round distinct from `subA` and `subB`. -/
def subC : SubRound :=
  SubRound.mk 24 30 ScoringType.IMPERIAL faceEx DistanceType.YARDS

/-- A sub-round with `num_arrows = 0` — accepted by the unchecked
`SubRound.__init__`. -/
def subZero : SubRound :=
  SubRound.mk 0 18 ScoringType.METRIC faceEx DistanceType.METRES

/-- A concrete two-distance round `[subA, subC]`. -/
def roundEx : Round := Round.mk "Example" Season.OUTDOORS [subA, subC]

/-- Class data accepting `{subA, subB}` at position 0 and `{subC}` at
position 1. -/
def classEx : RoundClassData :=
  RoundClassData.mk "Example class" Season.OUTDOORS [[subA, subB], [subC]]

/-- A validator that accepts every round. -/
def alwaysTrue : RoundValidator := fun _ _ => true

/-- A validator that rejects every round. -/
def alwaysFalse : RoundValidator := fun _ _ => false

/-- Padding element for out-of-range `List.getD` reads in theorem
statements; never actually selected, since every read is guarded by an
in-range bound. -/
def padSub : SubRound :=
  SubRound.mk 0 0 ScoringType.METRIC (TargetFace.mk "" 0 [] TargetConfig.SINGLE_FACE)
    DistanceType.METRES

/-! ### Shared helper lemmas -/

theorem foldl_and_apply {α : Type} (g : α → Bool) :
    ∀ (l : List α) (b : Bool), l.foldl (fun x v => x && g v) b = (b && l.all g) := by
  intro l
  induction l with
  | nil => intro b; simp
  | cons hd tl ih =>
      intro b
      simp only [List.foldl_cons, List.all_cons, ih, Bool.and_assoc]

theorem foldl_and_bools (l : List Bool) :
    l.foldl (fun x y => x && y) true = l.all (fun b => b) := by
  have h := foldl_and_apply (fun b => b) l true
  simpa using h

theorem all_map_general {α β : Type} (f : α → β) (p : β → Bool) (l : List α) :
    (l.map f).all p = l.all (fun x => p (f x)) := by
  induction l with
  | nil => rfl
  | cons hd tl ih => simp [List.all_cons, ih]

theorem foldl_add_num : ∀ (l : List SubRound) (init : Int),
    l.foldl (fun x y => x + y.num_arrows) init = init + (l.map SubRound.num_arrows).sum := by
  intro l
  induction l with
  | nil => intro init; simp
  | cons hd tl ih =>
      intro init
      simp only [List.foldl_cons, List.map_cons, List.sum_cons, ih, add_assoc]

theorem length_le_sum_of_pos : ∀ l : List SubRound,
    (∀ s ∈ l, 0 < s.num_arrows) → (l.length : Int) ≤ (l.map SubRound.num_arrows).sum := by
  intro l
  induction l with
  | nil => intro _; simp
  | cons hd tl ih =>
      intro h
      have hhd : 0 < hd.num_arrows := h hd (List.mem_cons_self hd tl)
      have htl : (tl.length : Int) ≤ (tl.map SubRound.num_arrows).sum :=
        ih (fun s hs => h s (List.mem_cons_of_mem hd hs))
      simp only [List.length_cons, List.map_cons, List.sum_cons]
      push_cast
      omega

/-! ### Claim theorems -/

/-- C2: `RoundClass.validate_round` returns the logical conjunction of
`v(c, r)` over every validator `v` in `c.validators` (true when the
list is empty); consequently a class holding one always-true and one
always-false validator classifies every round as a non-member, and a
class with an empty validator list classifies every round as a member
regardless of its shape. -/
theorem validate_round_is_conjunction :
    (∀ (c : RoundClass) (r : Round),
        c.validate_round r = c.validators.all (fun v => v c.toRoundClassData r))
    ∧ (∀ (d : RoundClassData) (r : Round),
        (RoundClass.mk d [alwaysTrue, alwaysFalse]).validate_round r = false
        ∧ (RoundClass.mk d []).validate_round r = true) := by
  constructor
  · intro c r
    unfold RoundClass.validate_round
    exact foldl_and_apply (fun v => v c.toRoundClassData r) c.validators true
  · intro d r
    exact ⟨rfl, rfl⟩

/-- C3: constructing a `Round` from an empty sub-round sequence fails
with the `ValueError` that corresponds to the spec's
`ValidationError("EmptyRound")`, and any non-empty sequence `s` is
accepted with `subrounds` stored exactly as `s`, in order,
unmodified. -/
theorem round_make_empty_guard :
    ∀ (name : String) (season : Season) (s : List SubRound),
      Round.make name season (Option.some s)
        = if s.isEmpty then Except.error emptyRoundMsg
          else Except.ok (Round.mk name season s) := by
  intro name season s
  cases s with
  | nil => rfl
  | cons hd tl => simp [Round.make]

/-- C7: `Round.num_arrows` is the sum of `num_arrows` over the
sub-rounds, and when every sub-round's count is positive the total is
at least the number of sub-rounds. -/
theorem num_arrows_is_sum (r : Round) :
    r.num_arrows = (r.subrounds.map SubRound.num_arrows).sum
    ∧ ((∀ s ∈ r.subrounds, 0 < s.num_arrows) →
        (r.subrounds.length : Int) ≤ r.num_arrows) := by
  constructor
  · unfold Round.num_arrows
    have h := foldl_add_num r.subrounds 0
    simpa using h
  · intro hpos
    unfold Round.num_arrows
    have h := foldl_add_num r.subrounds 0
    rw [h]
    have h2 := length_le_sum_of_pos r.subrounds hpos
    omega

/-- Witness for C7 at the concrete round `roundEx`. -/
theorem num_arrows_is_sum_witness :
    (roundEx.subrounds.length : Int) ≤ roundEx.num_arrows :=
  (num_arrows_is_sum roundEx).2 (by decide)

/-- C9: `SubRound.__init__` enforces nothing (every input, including
`num_arrows = 0` and non-positive distances, is stored verbatim), so a
`Round` all of whose sub-rounds have `num_arrows = 0` is constructible,
and its `num_arrows` property is `0`, strictly below its sub-round
count. -/
theorem subround_positivity_not_enforced :
    (∀ (n : Int) (d : ℚ) (st : ScoringType) (tf : TargetFace) (dt : DistanceType),
        (SubRound.mk n d st tf dt).num_arrows = n
        ∧ (SubRound.mk n d st tf dt).distance = d)
    ∧ Round.make "Zero round" Season.INDOORS (Option.some [subZero, subZero])
        = Except.ok (Round.mk "Zero round" Season.INDOORS [subZero, subZero])
    ∧ (Round.mk "Zero round" Season.INDOORS [subZero, subZero]).num_arrows = 0
    ∧ (Round.mk "Zero round" Season.INDOORS [subZero, subZero]).num_arrows
        < ((Round.mk "Zero round" Season.INDOORS [subZero, subZero]).subrounds.length : Int) := by
  refine ⟨fun n d st tf dt => ⟨rfl, rfl⟩, rfl, rfl, ?_⟩
  decide

/-- C10: passing `None` (or the empty list) as `subrounds` raises the
same "at least 1 SubRound" `ValueError` as an empty sequence, so every
successfully constructed `Round` holds a non-empty sequence. -/
theorem round_make_rejects_falsy :
    (∀ (name : String) (season : Season),
        Round.make name season Option.none = Except.error emptyRoundMsg
        ∧ Round.make name season (Option.some []) = Except.error emptyRoundMsg)
    ∧ (∀ (name : String) (season : Season) (sr : Option (List SubRound)) (r : Round),
        Round.make name season sr = Except.ok r → r.subrounds ≠ []) := by
  constructor
  · intro name season
    exact ⟨rfl, rfl⟩
  · intro name season sr r h
    match sr with
    | Option.none => exact absurd h (by simp [Round.make])
    | Option.some [] => exact absurd h (by simp [Round.make])
    | Option.some (hd :: tl) =>
        have : r = Round.mk name season (hd :: tl) := by
          simpa [Round.make] using h.symm
        simp [this]

/-- Witness for C10 at a concrete construction. -/
theorem round_make_rejects_falsy_witness :
    (Round.mk "Witness" Season.INDOORS [subB]).subrounds ≠ [] :=
  round_make_rejects_falsy.2 "Witness" Season.INDOORS (Option.some [subB])
    (Round.mk "Witness" Season.INDOORS [subB]) rfl

theorem comprehend_of_lists :
    ∀ ps : List (SubRound × List SubRound),
      comprehend (ps.map (fun p => (p.1, PySeq.list p.2)))
        = Except.ok (ps.map (fun p => pyContains p.2 p.1)) := by
  intro ps
  induction ps with
  | nil => rfl
  | cons hd tl ih =>
      simp only [List.map_cons, comprehend, pyIn, ih]
      rfl

theorem exOk_comprehend :
    ∀ ps : List (SubRound × PySeq),
      exOk (comprehend ps) = !(ps.any (fun p => decide (p.2 = PySeq.notIterable))) := by
  intro ps
  induction ps with
  | nil => rfl
  | cons hd tl ih =>
      match hhd : hd.2 with
      | PySeq.notIterable =>
          simp only [comprehend, pyIn, hhd, List.any_cons, exOk]
          simp
      | PySeq.list l =>
          simp only [comprehend, pyIn, hhd, List.any_cons]
          match hc : comprehend tl with
          | Except.error e =>
              rw [hc] at ih
              simp only [exOk] at ih ⊢
              simp [← ih, hhd]
          | Except.ok vs =>
              rw [hc] at ih
              simp only [exOk] at ih ⊢
              simp [← ih, hhd]

/-- C8: `Round.belongs_to` and `RoundClass.validate_round` are the same
membership test (the method simply delegates), and on a present,
well-formed class the default engine returns `Except.ok` of the static
result — it does not raise on a negative outcome. -/
theorem belongs_to_equiv_validate_round :
    (∀ (r : Round) (c : RoundClass), r.belongs_to c = c.validate_round r)
    ∧ (∀ (rc : RoundClassData) (r : Round),
        valid_subround_choicesDyn (Option.some rc.toDyn) (Option.some r)
          = Except.ok (valid_subround_choices rc r)) := by
  constructor
  · intro r c
    rfl
  · intro rc r
    show (match comprehend (r.subrounds.zip (rc.subrounds.map PySeq.list)) with
      | Except.error e => Except.error e
      | Except.ok bs => Except.ok (bs.foldl (fun x y => x && y) true))
      = Except.ok (valid_subround_choices rc r)
    have hzip : r.subrounds.zip (rc.subrounds.map PySeq.list)
        = (r.subrounds.zip rc.subrounds).map (fun p => (p.1, PySeq.list p.2)) := by
      rw [List.zip_map_right]
      rfl
    rw [hzip, comprehend_of_lists]
    rfl

/-- C6: the classification engine never raises on a non-membership
outcome; it raises (the spec's `InvalidArgument`, concretely Python's
`AttributeError`/`TypeError`) exactly when given structurally malformed
inputs — a `None` round, a `None` round class (also via `belongs_to`),
or a non-iterable acceptable set at one of the positions the positional
pairing actually reaches. -/
theorem engine_raises_iff_malformed :
    (∀ (rc : Option RoundClassDyn) (rnd : Option Round),
        exOk (valid_subround_choicesDyn rc rnd) = !(malformedInputs rc rnd))
    ∧ (∀ r : Round, Round.belongs_toDyn r Option.none = Except.error "AttributeError") := by
  constructor
  · intro rc rnd
    match rc, rnd with
    | Option.none, Option.none => rfl
    | Option.some c, Option.none => rfl
    | Option.none, Option.some r => rfl
    | Option.some c, Option.some r =>
        show exOk (match comprehend (r.subrounds.zip c.subrounds) with
          | Except.error e => Except.error e
          | Except.ok bs => Except.ok (bs.foldl (fun x y => x && y) true))
          = !(malformedInputs (Option.some c) (Option.some r))
        have h := exOk_comprehend (r.subrounds.zip c.subrounds)
        match hc : comprehend (r.subrounds.zip c.subrounds) with
        | Except.error e =>
            rw [hc] at h
            simp only [exOk] at h ⊢
            simpa [malformedInputs] using h
        | Except.ok bs =>
            rw [hc] at h
            simp only [exOk] at h ⊢
            simpa [malformedInputs] using h
  · intro r
    rfl

/-- C1: the default validator `valid_subround_choices(c, r)` returns
true iff at every index `i` below
`min(len(r.subrounds), len(c.subrounds))` the round's sub-round
`r.subrounds[i]` is structurally equal to some member of the acceptable
set `c.subrounds[i]`; positions beyond the shorter sequence are
ignored, and a round matching the class's sets only after reordering
fails the position-for-position test and is rejected. -/
theorem valid_subround_choices_prefix_iff (round_class : RoundClassData) (rnd : Round) :
    valid_subround_choices round_class rnd = true ↔
      ∀ i, i < min rnd.subrounds.length round_class.subrounds.length →
        ∃ s ∈ round_class.subrounds.getD i [], rnd.subrounds.getD i padSub = s := by
  unfold valid_subround_choices
  rw [foldl_and_bools, all_map_general, List.all_eq_true]
  constructor
  · intro h i hi
    have hi1 : i < rnd.subrounds.length := lt_of_lt_of_le hi (Nat.min_le_left _ _)
    have hi2 : i < round_class.subrounds.length := lt_of_lt_of_le hi (Nat.min_le_right _ _)
    have hz : i < (rnd.subrounds.zip round_class.subrounds).length := by
      rw [List.length_zip]
      exact lt_min hi1 hi2
    have hmem : (rnd.subrounds.zip round_class.subrounds)[i]
        ∈ rnd.subrounds.zip round_class.subrounds := List.getElem_mem hz
    have hp := h _ hmem
    rw [List.getElem_zip] at hp
    simp only [pyContains, List.any_eq_true, decide_eq_true_eq] at hp
    obtain ⟨x, hx, hxe⟩ := hp
    refine ⟨x, ?_, ?_⟩
    · rw [List.getD_eq_getElem _ _ hi2]
      exact hx
    · rw [List.getD_eq_getElem _ _ hi1]
      exact hxe.symm
  · intro h p hp
    rw [List.mem_iff_getElem] at hp
    obtain ⟨i, hlen, hpi⟩ := hp
    have hlen2 := hlen
    rw [List.length_zip] at hlen2
    have hi1 : i < rnd.subrounds.length := lt_of_lt_of_le hlen2 inf_le_left
    have hi2 : i < round_class.subrounds.length := lt_of_lt_of_le hlen2 inf_le_right
    rw [List.getElem_zip] at hpi
    subst hpi
    obtain ⟨s, hs, hse⟩ := h i (lt_min hi1 hi2)
    rw [List.getD_eq_getElem _ _ hi2] at hs
    rw [List.getD_eq_getElem _ _ hi1] at hse
    simp only [pyContains, List.any_eq_true, decide_eq_true_eq]
    exact ⟨s, hs, hse.symm⟩

/-- Witness for C1: the concrete round `[subA, subC]` is accepted by
the class allowing `{subA, subB}` then `{subC}`. -/
theorem valid_subround_choices_prefix_iff_witness :
    valid_subround_choices classEx roundEx = true :=
  (valid_subround_choices_prefix_iff classEx roundEx).mpr (by with_unfolding_all decide)

/-- C4 (code-bug evaluation): at the claim's own example input — a
`SubRound` at distance 70.0 m with `DistanceType.METRES`, precision 2 —
the source renders `"70.0m"`, not the specified `"70m"`: the unit
suffix is concatenated before `.rstrip("0").rstrip(".")` run, so the
string ends in `'m'` and the strips remove nothing. -/
theorem readable_distance_keeps_trailing_zero :
    SubRound.readable_distance subA 2 = "70.0m"
    ∧ SubRound.readable_distance subA 2 ≠ "70m" := by
  with_unfolding_all decide

/-- C5 counterexample: `Round.__eq__` applied to a value of a different
type (here the integer `0`) does not return `False` — the method has no
fallthrough return, so it yields Python `None`. -/
theorem round_pyEq_cross_type_not_false :
    Round.pyEq roundEx (PyVal.vInt 0) ≠ Option.some false := by
  decide

/-- C5 (amended): `TargetFace` equality is structural and
order-sensitive — true iff name, diameter, ring sequence (in identical
order) and config all agree — and cross-type equality checks never
raise: `TargetFace.__eq__` and `SubRound.__eq__` return `False` against
a different type, while `Round.__eq__` returns Python `None` (a falsy
value, but not `False`). -/
theorem value_object_equality_structural :
    (∀ t o : TargetFace,
        TargetFace.pyEq t (PyVal.vTargetFace o) = true
          ↔ (t.name = o.name ∧ t.diameter = o.diameter ∧ t.rings = o.rings
              ∧ t.config = o.config))
    ∧ (∀ (t : TargetFace) (v : PyVal), PyVal.isTargetFace v = false →
        TargetFace.pyEq t v = false)
    ∧ (∀ (s : SubRound) (v : PyVal), PyVal.isSubRound v = false →
        SubRound.pyEq s v = false)
    ∧ (∀ (r : Round) (v : PyVal), PyVal.isRound v = false →
        Round.pyEq r v = Option.none) := by
  refine ⟨?_, ?_, ?_, ?_⟩
  · intro t o
    simp only [TargetFace.pyEq, Bool.and_eq_true, decide_eq_true_eq]
    tauto
  · intro t v hv
    cases v <;> simp_all [TargetFace.pyEq, PyVal.isTargetFace]
  · intro s v hv
    cases v <;> simp_all [SubRound.pyEq, PyVal.isSubRound]
  · intro r v hv
    cases v <;> simp_all [Round.pyEq, PyVal.isRound]

/-- Witness for C5 at concrete cross-type comparisons. -/
theorem value_object_equality_structural_witness :
    TargetFace.pyEq faceEx (PyVal.vInt 3) = false
    ∧ SubRound.pyEq subA (PyVal.vStr "hello") = false
    ∧ Round.pyEq roundEx PyVal.vNone = Option.none :=
  ⟨value_object_equality_structural.2.1 faceEx (PyVal.vInt 3) rfl,
   value_object_equality_structural.2.2.1 subA (PyVal.vStr "hello") rfl,
   value_object_equality_structural.2.2.2 roundEx PyVal.vNone rfl⟩

end ArcheryRounds
